import Mathlib

/-! Verification of the export pipeline of the ai-dashboard-generator
frontend, a shallow embedding of
`frontend/src/services/ExportService.ts`.

Modelling conventions:
* JavaScript numbers are embedded as `Rat` (all arithmetic in the source
  is exact on rationals, so no rounding model is needed);
* possibly-`undefined` fields are `Option`s; JS string truthiness
  (the empty string is falsy) is modelled explicitly where the source
  relies on it;
* a thrown JS exception is the `Except.error` case of `Except JSError`;
  external effects that can throw (the canvas snapshot, the clipboard
  write) are passed in as `Except`-valued functions;
* opaque binary artifacts (object URLs of pdf/pptx blobs) are modelled
  as fixed tokens, since no property depends on their bytes;
* `String.prototype.toLowerCase` and number-to-string conversion are
  modelled at the ASCII/integer level, which covers every string the
  source manipulates in the verified properties. -/

namespace DashboardExport

/-- A thrown JavaScript error, reduced to its `message`. -/
structure JSError where
  message : String
  deriving DecidableEq, Repr

/-- A KPI `value` is a JS number or string (`number | string`). -/
inductive JSValue where
  | num (q : Rat)
  | str (s : String)
  deriving DecidableEq, Repr

/-- `{x, y}` logical-canvas position of a component. -/
structure Position where
  x : Rat
  y : Rat
  deriving DecidableEq, Repr

/-- `{width, height}` logical-canvas size of a component. -/
structure Size where
  width : Rat
  height : Rat
  deriving DecidableEq, Repr

/-- One chart dataset: optional `labels`, numeric `data`. -/
structure Dataset where
  labels : Option (List String)
  data : List Rat
  deriving DecidableEq, Repr

/-- The variant `data` payload of a component: `datasets` for charts,
`value`/`unit` for KPIs.  Absent fields are `none`. -/
structure ComponentData where
  datasets : Option (List Dataset)
  value : Option JSValue
  unit : Option String
  deriving DecidableEq, Repr

/-- One dashboard component. -/
structure Component where
  id : String
  type : String
  title : Option String
  position : Position
  size : Size
  data : ComponentData
  deriving DecidableEq, Repr

/-- The dashboard theme (opaque color/font tokens). -/
structure Theme where
  primaryColor : String
  backgroundColor : String
  textColor : String
  fontFamily : String
  deriving DecidableEq, Repr

/-- `DashboardConfig`: title, theme and the ordered component list. -/
structure DashboardConfig where
  title : String
  theme : Theme
  components : List Component
  deriving DecidableEq, Repr

/-- `ExportResponse`: `success` flag plus the optional fields the source
populates (`downloadUrl`/`filename` on success, `error` on failure). -/
structure ExportResponse where
  success : Bool
  downloadUrl : Option String := none
  filename : Option String := none
  error : Option String := none
  deriving DecidableEq, Repr

/-- The rendering surface: `toDataURL` may throw (e.g. detached
surface), so it is `Except`-valued.  The fixed quality/multiplier
constants of the source do not influence any verified property and are
elided. -/
structure Canvas where
  toDataURL : String → Except JSError String

/-- `navigator.clipboard.writeText`, which may reject. -/
abbrev Clipboard : Type := String → Except JSError Unit

/-! String helpers mirroring the JS string operations the source uses. -/

/-- The whitespace class of the regex `\s` (ASCII subset: space, tab,
line feed, vertical tab, form feed, carriage return). -/
def jsWhitespace (ch : Char) : Bool :=
  ch = ' ' || ch = '\t' || ch = '\n' || ch = Char.ofNat 11 || ch = Char.ofNat 12 || ch = '\r'

/-- Core of `replace(/\s+/g, '_')`: the flag records whether we are
inside a whitespace run that has already produced its underscore. -/
def collapseWSAux : Bool → List Char → List Char
  | _, [] => []
  | inRun, ch :: rest =>
    if jsWhitespace ch then
      if inRun then collapseWSAux true rest
      else '_' :: collapseWSAux true rest
    else ch :: collapseWSAux false rest

/-- `title.replace(/\s+/g, '_')`: every maximal whitespace run becomes a
single underscore. -/
def jsReplaceWS (s : String) : String := String.mk (collapseWSAux false s.data)

/-- `toLowerCase()` (ASCII case mapping). -/
def jsToLower (s : String) : String := String.mk (s.data.map Char.toLower)

/-- Rendering of a JS number into a string (integral rationals print
like JS integers; non-integral ones print as fractions, an admissible
rendering since no verified property inspects a non-integral number's
text). -/
def ratDisplay (q : Rat) : String :=
  if q.den = 1 then toString q.num else toString q

/-- String interpolation `${value}` of a possibly-undefined KPI value. -/
def jsDisplayValue : Option JSValue → String
  | none => "undefined"
  | some (JSValue.num q) => ratDisplay q
  | some (JSValue.str s) => s

/-- `unit || ''`: a present non-empty string is kept, an absent or empty
(falsy) one yields the empty string. -/
def jsOrEmpty : Option String → String
  | some s => if s = "" then "" else s
  | none => ""

/-- JS truthiness of an optional string (`undefined` and `''` are
falsy). -/
def jsTruthyStr : Option String → Bool
  | some s => !(s == "")
  | none => false

/-! Geometry. -/

/-- Percentage geometry of one component in the generated markup
(`left`, `top`, `width`, `height` in percent), from
`generateHTMLCode`. -/
def htmlGeometry (c : Component) : Rat × Rat × Rat × Rat :=
  ((c.position.x / 800) * 100,
   (c.position.y / 450) * 100,
   (c.size.width / 800) * 100,
   (c.size.height / 450) * 100)

/-- Slide geometry of one component in the presentation export
(`x`, `y`, `w`, `h` in slide units), from `exportAsPowerPoint`. -/
def pptxGeom (c : Component) : Rat × Rat × Rat × Rat :=
  ((c.position.x / 800) * 10,
   (c.position.y / 450) * 5.6 + 1.2,
   (c.size.width / 800) * 10,
   (c.size.height / 450) * 5.6)

/-- The image box `(x, y, imgWidth, imgHeight)` computed by
`exportAsPDF`: fit the 16:9 snapshot to the width of the margined A4
landscape page, shrink to the available height (re-deriving the width
from the aspect) if required, then center. -/
def pdfImageBox : Rat × Rat × Rat × Rat :=
  let pdfWidth : Rat := 297
  let pdfHeight : Rat := 210
  let aspect : Rat := 16 / 9
  let imgWidth : Rat := pdfWidth - 20
  let imgHeight : Rat := imgWidth / aspect
  let fitted : Rat × Rat :=
    if imgHeight > pdfHeight - 20 then ((pdfHeight - 20) * aspect, pdfHeight - 20)
    else (imgWidth, imgHeight)
  let x : Rat := (pdfWidth - fitted.1) / 2
  let y : Rat := (pdfHeight - fitted.2) / 2
  (x, y, fitted.1, fitted.2)

/-! Presentation renderer (`exportAsPowerPoint`). -/

/-- One bar-chart data point `{name, values}`; a `values` entry is
`none` when the JS array access `chartData.data[i]` is out of range
(yielding `undefined`). -/
structure BarPoint where
  name : String
  values : List (Option Rat)
  deriving DecidableEq, Repr

/-- Options of an emitted text box (`slide.addText`). -/
structure TextOpts where
  x : Rat
  y : Rat
  w : Rat
  h : Rat
  fontSize : Nat
  fontFace : String
  color : String
  bold : Bool := false
  align : Option String := none
  deriving DecidableEq, Repr

/-- Options of an emitted chart (`slide.addChart`). -/
structure ChartOpts where
  x : Rat
  y : Rat
  w : Rat
  h : Rat
  title : Option String
  deriving DecidableEq, Repr

/-- A shape added to the slide. -/
inductive Shape where
  | text (content : String) (opts : TextOpts)
  | barChart (series : List BarPoint) (opts : ChartOpts)
  deriving DecidableEq, Repr

/-- `chartData.labels?.map((label, i) => ({name, values:[data[i]]})) || []`:
the bar series of the first dataset; absent labels give the empty
series. -/
def chartSeries (d : Dataset) : List BarPoint :=
  match d.labels with
  | some ls => ls.enum.map (fun p => { name := p.2, values := [d.data.get? p.1] })
  | none => []

/-- `${component.data.value} ${component.data.unit || ''}` — the KPI
display text, used verbatim by both the presentation renderer and the
markup renderer. -/
def kpiDisplayText (data : ComponentData) : String :=
  jsDisplayValue data.value ++ " " ++ jsOrEmpty data.unit

/-- The shapes emitted for one component of the slide.  Mirrors the
source branch structure: the chart branch is guarded by
`component.type === 'chart' && component.data.datasets` (an empty
`datasets` array is truthy, so indexing `datasets[0]` then throws);
the `kpi` branch emits the value box and, when the title is truthy,
a title box 0.3 units above it; anything else emits nothing. -/
def componentShapes (theme : Theme) (c : Component) : Except JSError (List Shape) :=
  let g := pptxGeom c
  match c.type == "chart", c.data.datasets with
  | true, some ds =>
    match ds.head? with
    | none => Except.error { message := "Cannot read properties of undefined (reading labels)" }
    | some d =>
      Except.ok [Shape.barChart (chartSeries d)
        { x := g.1, y := g.2.1, w := g.2.2.1, h := g.2.2.2, title := c.title }]
  | _, _ =>
    if c.type = "kpi" then
      Except.ok
        (Shape.text (kpiDisplayText c.data)
          { x := g.1, y := g.2.1, w := g.2.2.1, h := g.2.2.2,
            fontSize := 18, fontFace := "Arial", color := theme.primaryColor,
            bold := true, align := some "center" } ::
         (if jsTruthyStr c.title then
            [Shape.text (c.title.getD "")
              { x := g.1, y := g.2.1 - 0.3, w := g.2.2.1, h := 0.3,
                fontSize := 12, fontFace := "Arial", color := theme.textColor }]
          else []))
    else Except.ok []

/-- Effectful traversal of the component list (`forEach`): the first
thrown error aborts the slide construction. -/
def mapExcept {α β : Type} (f : α → Except JSError β) : List α → Except JSError (List β)
  | [] => Except.ok []
  | a :: as =>
    match f a with
    | Except.error e => Except.error e
    | Except.ok b =>
      match mapExcept f as with
      | Except.error e => Except.error e
      | Except.ok bs => Except.ok (b :: bs)

/-- All shapes of the single slide: the dashboard title box followed by
every component's shapes in order. -/
def slideShapes (db : DashboardConfig) : Except JSError (List Shape) :=
  match mapExcept (componentShapes db.theme) db.components with
  | Except.error e => Except.error e
  | Except.ok shapeLists =>
    Except.ok
      (Shape.text db.title
        { x := 0.5, y := 0.3, w := 9, h := 0.8,
          fontSize := 24, fontFace := "Arial", color := db.theme.primaryColor,
          bold := true } :: shapeLists.flatten)

/-- `exportAsPowerPoint`: build the slide, then wrap the written blob
(modelled by an opaque object-URL token) into a success response. -/
def exportAsPowerPoint (db : DashboardConfig) : Except JSError ExportResponse :=
  match slideShapes db with
  | Except.error e => Except.error e
  | Except.ok _shapes =>
    Except.ok
      { success := true
        downloadUrl := some "blob:pptx"
        filename := some (jsToLower (jsReplaceWS db.title) ++ ".pptx") }

/-! Image and document renderers. -/

/-- `exportAsImage`: snapshot the surface in the requested format and
return it as the artifact under the fixed filename
`dashboard.<format>`. -/
def exportAsImage (cv : Canvas) (format : String) : Except JSError ExportResponse :=
  match cv.toDataURL format with
  | Except.error e => Except.error e
  | Except.ok dataURL =>
    Except.ok
      { success := true
        downloadUrl := some dataURL
        filename := some ("dashboard." ++ format) }

/-- `exportAsPDF`: snapshot the surface as JPEG, place it at
`pdfImageBox` on the A4 landscape page, and return the document blob
(opaque token) under the title-derived filename. -/
def exportAsPDF (cv : Canvas) (title : String) : Except JSError ExportResponse :=
  match cv.toDataURL "image/jpeg" with
  | Except.error e => Except.error e
  | Except.ok _imgData =>
    let _box := pdfImageBox
    Except.ok
      { success := true
        downloadUrl := some "blob:pdf"
        filename := some (jsToLower (jsReplaceWS title) ++ ".pdf") }

/-! Markup renderer (`generateHTMLCode` / `exportAsHTML`). -/

/-- Rendering of a percentage value inside the generated style text. -/
def ratStr (q : Rat) : String := ratDisplay q

/-- Hexadecimal digit (uppercase) for percent-encoding. -/
def hexDigit (n : Nat) : Char :=
  if n < 10 then Char.ofNat (48 + n) else Char.ofNat (55 + n)

/-- Characters `encodeURIComponent` leaves unencoded. -/
def uriUnreserved (ch : Char) : Bool :=
  ch.isAlphanum || "-_.!~*()".data.contains ch || ch = Char.ofNat 39

/-- `encodeURIComponent` (ASCII-level model: each encoded character
becomes `%HH` of its code point). -/
def encodeURIComponent (s : String) : String :=
  String.join (s.data.map (fun ch =>
    if uriUnreserved ch then String.singleton ch
    else "%" ++ String.singleton (hexDigit (ch.toNat / 16 % 16)) ++
         String.singleton (hexDigit (ch.toNat % 16))))

/-- The innermost markup of one component block: the KPI value text for
a `kpi` component, an empty chart canvas placeholder tagged with the
component id otherwise. -/
def htmlComponentInner (c : Component) : String :=
  if c.type = "kpi" then
    "<div class=\"kpi-value\">" ++ kpiDisplayText c.data ++ "</div>"
  else "<canvas id=\"chart-" ++ c.id ++ "\"></canvas>"

/-- One positioned component block of the generated markup: inline
percentage geometry, an optional title label, then the inner markup. -/
def htmlComponentBlock (c : Component) : String :=
  let g := htmlGeometry c
  "\n        <div class=\"component\" style=\"\n            left: " ++ ratStr g.1 ++
  "%;\n            top: " ++ ratStr g.2.1 ++
  "%;\n            width: " ++ ratStr g.2.2.1 ++
  "%;\n            height: " ++ ratStr g.2.2.2 ++
  "%;\n        \">\n            " ++
  (if jsTruthyStr c.title then
    "<div class=\"component-title\">" ++ c.title.getD "" ++ "</div>"
   else "") ++
  "\n            " ++ htmlComponentInner c ++
  "\n        </div>\n        "

/-- The complete generated document of `generateHTMLCode`. -/
def generateHTMLCode (db : DashboardConfig) : String :=
  "<!DOCTYPE html>\n" ++
  "<html lang=\"en\">\n" ++
  "<head>\n" ++
  "    <meta charset=\"UTF-8\">\n" ++
  "    <meta name=\"viewport\" content=\"width=device-width, initial-scale=1.0\">\n" ++
  "    <title>" ++ db.title ++ "</title>\n" ++
  "    <script src=\"https://cdn.jsdelivr.net/npm/chart.js\"></script>\n" ++
  "    <style>\n" ++
  "        body \x7b\n" ++
  "            font-family: " ++ db.theme.fontFamily ++ ";\n" ++
  "            background-color: " ++ db.theme.backgroundColor ++ ";\n" ++
  "            color: " ++ db.theme.textColor ++ ";\n" ++
  "            margin: 0;\n" ++
  "            padding: 20px;\n" ++
  "        \x7d\n" ++
  "        .dashboard \x7b\n" ++
  "            max-width: 1200px;\n" ++
  "            margin: 0 auto;\n" ++
  "            aspect-ratio: 16/9;\n" ++
  "            position: relative;\n" ++
  "        \x7d\n" ++
  "        .component \x7b\n" ++
  "            position: absolute;\n" ++
  "            background: white;\n" ++
  "            border: 1px solid #e5e7eb;\n" ++
  "            border-radius: 8px;\n" ++
  "            padding: 16px;\n" ++
  "            box-shadow: 0 1px 3px rgba(0,0,0,0.1);\n" ++
  "        \x7d\n" ++
  "        .kpi-value \x7b\n" ++
  "            font-size: 2rem;\n" ++
  "            font-weight: bold;\n" ++
  "            color: " ++ db.theme.primaryColor ++ ";\n" ++
  "        \x7d\n" ++
  "        .component-title \x7b\n" ++
  "            font-size: 1.1rem;\n" ++
  "            font-weight: 600;\n" ++
  "            margin-bottom: 12px;\n" ++
  "            color: " ++ db.theme.textColor ++ ";\n" ++
  "        \x7d\n" ++
  "    </style>\n" ++
  "</head>\n" ++
  "<body>\n" ++
  "    <div class=\"dashboard\">\n" ++
  "        <h1>" ++ db.title ++ "</h1>\n" ++
  "        " ++ String.join (db.components.map htmlComponentBlock) ++ "\n" ++
  "    </div>\n" ++
  "</body>\n" ++
  "</html>"

/-- `exportAsHTML`: generate the document, copy it to the clipboard
(awaited — a rejection propagates), then return the document as a
data-URL artifact under the fixed filename. -/
def exportAsHTML (cb : Clipboard) (db : DashboardConfig) : Except JSError ExportResponse :=
  let html := generateHTMLCode db
  match cb html with
  | Except.error e => Except.error e
  | Except.ok _ =>
    Except.ok
      { success := true
        downloadUrl := some ("data:text/html;charset=utf-8," ++ encodeURIComponent html)
        filename := some "dashboard.html" }

/-! Export orchestrator (`exportDashboard`). -/

/-- The closed set of supported formats. -/
def supportedFormats : List String := ["jpeg", "png", "pdf", "pptx", "html"]

/-- The `switch (format)` dispatch of `exportDashboard`; the default
case throws `Unsupported export format: <format>`. -/
def dispatch (db : DashboardConfig) (format : String) (cv : Canvas) (cb : Clipboard) :
    Except JSError ExportResponse :=
  if format = "jpeg" then exportAsImage cv "jpeg"
  else if format = "png" then exportAsImage cv "png"
  else if format = "pdf" then exportAsPDF cv db.title
  else if format = "pptx" then exportAsPowerPoint db
  else if format = "html" then exportAsHTML cb db
  else Except.error { message := "Unsupported export format: " ++ format }

/-- `exportDashboard`: dispatch to the selected renderer and normalize
any thrown error into a failure response with the fixed
`Export failed: ` prefix.  (The `Date.now()` instrumentation timestamp
has no observable effect and is elided.) -/
def exportDashboard (db : DashboardConfig) (format : String) (cv : Canvas) (cb : Clipboard) :
    ExportResponse :=
  match dispatch db format cv cb with
  | Except.ok resp => resp
  | Except.error e => { success := false, error := some ("Export failed: " ++ e.message) }

/-! Concrete fixtures used to instantiate the theorems below. -/

/-- A concrete theme. -/
def th0 : Theme :=
  { primaryColor := "#0055aa", backgroundColor := "#ffffff",
    textColor := "#222222", fontFamily := "Arial" }

/-- A rendering surface whose snapshot always succeeds. -/
def cvOk : Canvas := { toDataURL := fun _fmt => Except.ok "data:image/ok" }

/-- A detached rendering surface: every snapshot throws. -/
def cvFail : Canvas := { toDataURL := fun _fmt => Except.error { message := "canvas detached" } }

/-- A clipboard whose write always succeeds. -/
def cbOk : Clipboard := fun _s => Except.ok ()

/-- A clipboard whose write always rejects. -/
def cbFail : Clipboard := fun _s => Except.error { message := "clipboard denied" }

/-- A KPI component titled `Revenue` with value `1000` and unit `USD`. -/
def kpiCompW : Component :=
  { id := "k1", type := "kpi", title := some "Revenue",
    position := { x := 100, y := 90 }, size := { width := 200, height := 90 },
    data := { datasets := none, value := some (JSValue.num 1000), unit := some "USD" } }

/-- A chart component whose first dataset has labels `A`, `B` and data
`1`, `2`. -/
def chartCompW : Component :=
  { id := "c1", type := "chart", title := some "Chart",
    position := { x := 0, y := 0 }, size := { width := 400, height := 225 },
    data := { datasets := some [{ labels := some ["A", "B"], data := [1, 2] }],
              value := none, unit := none } }

/-- A chart component whose `datasets` field is absent. -/
def chartNoDs : Component :=
  { id := "c2", type := "chart", title := some "C",
    position := { x := 0, y := 0 }, size := { width := 100, height := 100 },
    data := { datasets := none, value := none, unit := none } }

/-- A chart component whose `datasets` field is the empty sequence. -/
def chartEmptyDs : Component :=
  { id := "c3", type := "chart", title := some "E",
    position := { x := 0, y := 0 }, size := { width := 100, height := 100 },
    data := { datasets := some [], value := none, unit := none } }

/-- A chart component whose first dataset has no labels. -/
def chartNoLabels : Component :=
  { id := "c4", type := "chart", title := none,
    position := { x := 0, y := 0 }, size := { width := 400, height := 225 },
    data := { datasets := some [{ labels := none, data := [3] }],
              value := none, unit := none } }

/-- A component of an unrecognized type. -/
def tableComp : Component :=
  { id := "t1", type := "table", title := some "T",
    position := { x := 0, y := 0 }, size := { width := 100, height := 100 },
    data := { datasets := none, value := none, unit := none } }

/-- A KPI component with no unit. -/
def kpiNoUnit : Component :=
  { id := "k2", type := "kpi", title := none,
    position := { x := 0, y := 0 }, size := { width := 100, height := 100 },
    data := { datasets := none, value := some (JSValue.num 42), unit := none } }

/-- A component exactly filling the 800×450 logical canvas. -/
def compFull : Component :=
  { id := "full", type := "kpi", title := none,
    position := { x := 0, y := 0 }, size := { width := 800, height := 450 },
    data := { datasets := none, value := none, unit := none } }

/-- An empty dashboard. -/
def dbW : DashboardConfig := { title := "My Dash", theme := th0, components := [] }

/-- A dashboard holding just the `Revenue` KPI. -/
def dbKpiW : DashboardConfig := { title := "My Dash", theme := th0, components := [kpiCompW] }

/-- A dashboard holding just the `A`/`B` chart. -/
def dbChartW : DashboardConfig := { title := "My Dash", theme := th0, components := [chartCompW] }

/-- A dashboard holding just the empty-`datasets` chart. -/
def dbEmptyDs : DashboardConfig := { title := "My Dash", theme := th0, components := [chartEmptyDs] }

/-! Helper lemmas. -/

/-- A successful image render carries `success = true` and no error. -/
lemma exportAsImage_ok {cv : Canvas} {fmt : String} {r : ExportResponse}
    (h : exportAsImage cv fmt = Except.ok r) : r.success = true ∧ r.error = none := by
  unfold exportAsImage at h
  cases hc : cv.toDataURL fmt with
  | error e => rw [hc] at h; simp at h
  | ok s => rw [hc] at h; simp at h; rw [← h]; exact ⟨rfl, rfl⟩

/-- A successful document render carries `success = true` and no
error. -/
lemma exportAsPDF_ok {cv : Canvas} {title : String} {r : ExportResponse}
    (h : exportAsPDF cv title = Except.ok r) : r.success = true ∧ r.error = none := by
  unfold exportAsPDF at h
  cases hc : cv.toDataURL "image/jpeg" with
  | error e => rw [hc] at h; simp at h
  | ok s => rw [hc] at h; simp at h; rw [← h]; exact ⟨rfl, rfl⟩

/-- A successful presentation render carries `success = true` and no
error. -/
lemma exportAsPowerPoint_ok {db : DashboardConfig} {r : ExportResponse}
    (h : exportAsPowerPoint db = Except.ok r) : r.success = true ∧ r.error = none := by
  unfold exportAsPowerPoint at h
  cases hc : slideShapes db with
  | error e => rw [hc] at h; simp at h
  | ok s => rw [hc] at h; simp at h; rw [← h]; exact ⟨rfl, rfl⟩

/-- A successful markup render carries `success = true` and no error. -/
lemma exportAsHTML_ok {cb : Clipboard} {db : DashboardConfig} {r : ExportResponse}
    (h : exportAsHTML cb db = Except.ok r) : r.success = true ∧ r.error = none := by
  simp only [exportAsHTML] at h
  cases hc : cb (generateHTMLCode db) with
  | error e => rw [hc] at h; simp at h
  | ok u => rw [hc] at h; simp at h; rw [← h]; exact ⟨rfl, rfl⟩

/-- Whatever renderer the dispatch selects, a renderer-level success
carries `success = true` and no error. -/
lemma dispatch_ok {db : DashboardConfig} {fmt : String} {cv : Canvas} {cb : Clipboard}
    {r : ExportResponse} (h : dispatch db fmt cv cb = Except.ok r) :
    r.success = true ∧ r.error = none := by
  unfold dispatch at h
  split_ifs at h <;>
    first
      | exact exportAsImage_ok h
      | exact exportAsPDF_ok h
      | exact exportAsPowerPoint_ok h
      | exact exportAsHTML_ok h

/-- The dispatch sends `pptx` to the presentation renderer. -/
lemma dispatch_pptx (db : DashboardConfig) (cv : Canvas) (cb : Clipboard) :
    dispatch db "pptx" cv cb = exportAsPowerPoint db := rfl

/-- The dispatch sends `html` to the markup renderer. -/
lemma dispatch_html (db : DashboardConfig) (cv : Canvas) (cb : Clipboard) :
    dispatch db "html" cv cb = exportAsHTML cb db := rfl

/-- If one list element throws, the whole traversal throws. -/
lemma mapExcept_error_of_mem {α β : Type} (f : α → Except JSError β) {l : List α} {c : α}
    (hmem : c ∈ l) {e : JSError} (he : f c = Except.error e) :
    ∃ e2, mapExcept f l = Except.error e2 := by
  induction l with
  | nil => cases hmem
  | cons a as ih =>
    rcases List.mem_cons.mp hmem with rfl | hmem2
    · exact ⟨e, by simp [mapExcept, he]⟩
    · cases hfa : f a with
      | error e3 => exact ⟨e3, by simp [mapExcept, hfa]⟩
      | ok b =>
        obtain ⟨e2, h2⟩ := ih hmem2
        exact ⟨e2, by simp [mapExcept, hfa, h2]⟩

/-- A single-component dashboard whose component renders cleanly
exports to `pptx` with the title-derived filename. -/
lemma pptx_single_ok {th : Theme} {t : String} {c : Component} {l : List Shape}
    (h : componentShapes th c = Except.ok l) (cv : Canvas) (cb : Clipboard) :
    exportDashboard { title := t, theme := th, components := [c] } "pptx" cv cb =
      { success := true, downloadUrl := some "blob:pptx",
        filename := some (jsToLower (jsReplaceWS t) ++ ".pptx") } := by
  unfold exportDashboard
  rw [dispatch_pptx]
  unfold exportAsPowerPoint slideShapes
  simp [mapExcept, h]

/-! Claim theorems. -/

/-- C1: for every dashboard, format value and rendering surface, the
orchestrator never raises: the result is either a success response, or
a failure response with no artifact whose error text starts with the
fixed `Export failed: ` prefix followed by the underlying error's
message; in particular a format outside the closed set
`{jpeg, png, pdf, pptx, html}` yields exactly the failure response for
the unsupported-format error. -/
theorem c1_export_never_raises (db : DashboardConfig) (format : String)
    (cv : Canvas) (cb : Clipboard) :
    (((exportDashboard db format cv cb).success = true ∧
      (exportDashboard db format cv cb).error = none) ∨
     ((exportDashboard db format cv cb).success = false ∧
      (exportDashboard db format cv cb).downloadUrl = none ∧
      (exportDashboard db format cv cb).filename = none ∧
      ∃ m, (exportDashboard db format cv cb).error = some ("Export failed: " ++ m))) ∧
    (format ∉ supportedFormats →
      exportDashboard db format cv cb =
        { success := false,
          error := some ("Export failed: " ++ ("Unsupported export format: " ++ format)) }) := by
  constructor
  · cases hd : dispatch db format cv cb with
    | ok r =>
      left
      have h := dispatch_ok hd
      unfold exportDashboard
      rw [hd]
      exact h
    | error e =>
      right
      unfold exportDashboard
      rw [hd]
      exact ⟨rfl, rfl, rfl, e.message, rfl⟩
  · intro hnot
    simp only [supportedFormats, List.mem_cons, List.not_mem_nil, or_false, not_or] at hnot
    obtain ⟨h1, h2, h3, h4, h5⟩ := hnot
    unfold exportDashboard dispatch
    rw [if_neg h1, if_neg h2, if_neg h3, if_neg h4, if_neg h5]

/-- C1 witness: requesting the unsupported format `svg` on a concrete
dashboard yields the prefixed failure response. -/
theorem c1_export_never_raises_witness :
    ("svg" ∉ supportedFormats) ∧
    exportDashboard dbW "svg" cvOk cbOk =
      { success := false,
        error := some ("Export failed: " ++ ("Unsupported export format: " ++ "svg")) } :=
  ⟨by decide, (c1_export_never_raises dbW "svg" cvOk cbOk).2 (by decide)⟩

/-- C4: the document renderer's image box keeps the 16:9 aspect ratio,
fits inside the 10-unit margins of the 297×210 landscape page, and is
centered both horizontally and vertically. -/
theorem c4_document_image_box :
    pdfImageBox.2.2.1 / pdfImageBox.2.2.2 = 16 / 9 ∧
    pdfImageBox.1 + pdfImageBox.2.2.1 ≤ 287 ∧
    pdfImageBox.2.1 + pdfImageBox.2.2.2 ≤ 200 ∧
    pdfImageBox.1 = (297 - pdfImageBox.2.2.1) / 2 ∧
    pdfImageBox.2.1 = (210 - pdfImageBox.2.2.2) / 2 := by
  have h : pdfImageBox = (10, 867 / 32, 277, 2493 / 16) := by norm_num [pdfImageBox]
  rw [h]
  norm_num

/-- C5: the presentation renderer, on a dashboard with one `Revenue`
KPI (value 1000, unit `USD`), emits exactly the slide title box, one
centered KPI text box containing `1000 USD`, and one title box 0.3
units above it of height 0.3 containing `Revenue`; on a dashboard with
one chart whose first dataset has labels `A`, `B` and data `1`, `2`, it
emits the slide title box and one bar chart with series
`A ↦ [1]`, `B ↦ [2]`. -/
theorem c5_presentation_examples :
    slideShapes dbKpiW = Except.ok [
      Shape.text "My Dash"
        { x := 0.5, y := 0.3, w := 9, h := 0.8, fontSize := 24, fontFace := "Arial",
          color := th0.primaryColor, bold := true },
      Shape.text "1000 USD"
        { x := 1.25, y := 2.32, w := 2.5, h := 1.12, fontSize := 18, fontFace := "Arial",
          color := th0.primaryColor, bold := true, align := some "center" },
      Shape.text "Revenue"
        { x := 1.25, y := 2.32 - 0.3, w := 2.5, h := 0.3, fontSize := 12, fontFace := "Arial",
          color := th0.textColor } ] ∧
    slideShapes dbChartW = Except.ok [
      Shape.text "My Dash"
        { x := 0.5, y := 0.3, w := 9, h := 0.8, fontSize := 24, fontFace := "Arial",
          color := th0.primaryColor, bold := true },
      Shape.barChart [{ name := "A", values := [some 1] }, { name := "B", values := [some 2] }]
        { x := 0, y := 1.2, w := 5, h := 2.8, title := some "Chart" } ] := by
  constructor
  · have hb : (("kpi" : String) == "chart") = false := by decide
    have h2 : ¬("USD" : String) = "" := by decide
    have h3 : ¬("Revenue" : String) = "" := by decide
    have h7 : toString (1000 : Int) = "1000" := by decide
    have h8 : ("1000" : String) ++ " " ++ "USD" = "1000 USD" := by decide
    norm_num [slideShapes, mapExcept, componentShapes, kpiDisplayText, jsDisplayValue,
      ratDisplay, jsOrEmpty, jsTruthyStr, pptxGeom, dbKpiW, kpiCompW, th0,
      hb, h2, h3, h7, h8]
  · norm_num [slideShapes, mapExcept, componentShapes, chartSeries, pptxGeom,
      dbChartW, chartCompW, th0, List.enum, List.enumFrom]

/-- C2: the markup renderer's percentage geometry is exactly
`x/800*100`, `y/450*100`, `width/800*100`, `height/450*100`; for a
component inside the 800×450 logical canvas this gives
`0 ≤ left, top` and `left + width ≤ 100`, and a component exactly
filling the canvas maps to `(0, 0, 100, 100)`. -/
theorem c2_markup_geometry (c : Component)
    (hx : 0 ≤ c.position.x) (hy : 0 ≤ c.position.y)
    (hxw : c.position.x + c.size.width ≤ 800)
    (hyh : c.position.y + c.size.height ≤ 450) :
    htmlGeometry c =
      (c.position.x / 800 * 100, c.position.y / 450 * 100,
       c.size.width / 800 * 100, c.size.height / 450 * 100) ∧
    0 ≤ (htmlGeometry c).1 ∧ 0 ≤ (htmlGeometry c).2.1 ∧
    (htmlGeometry c).1 + (htmlGeometry c).2.2.1 ≤ 100 ∧
    (c.position.x = 0 ∧ c.position.y = 0 ∧ c.size.width = 800 ∧ c.size.height = 450 →
      htmlGeometry c = (0, 0, 100, 100)) := by
  refine ⟨rfl, ?_, ?_, ?_, ?_⟩
  · exact mul_nonneg (div_nonneg hx (by norm_num)) (by norm_num)
  · exact mul_nonneg (div_nonneg hy (by norm_num)) (by norm_num)
  · show c.position.x / 800 * 100 + c.size.width / 800 * 100 ≤ 100
    have h : c.position.x / 800 * 100 + c.size.width / 800 * 100 =
        (c.position.x + c.size.width) * (1 / 8) := by ring
    rw [h]
    linarith
  · rintro ⟨e1, e2, e3, e4⟩
    simp [htmlGeometry, e1, e2, e3, e4]

/-- C2 witness: a component exactly filling the canvas satisfies the
containment hypotheses and maps to `(0, 0, 100, 100)`. -/
theorem c2_markup_geometry_witness :
    (0 ≤ compFull.position.x ∧ 0 ≤ compFull.position.y ∧
     compFull.position.x + compFull.size.width ≤ 800 ∧
     compFull.position.y + compFull.size.height ≤ 450) ∧
    htmlGeometry compFull = (0, 0, 100, 100) := by
  refine ⟨⟨by norm_num [compFull], by norm_num [compFull],
           by norm_num [compFull], by norm_num [compFull]⟩, ?_⟩
  exact (c2_markup_geometry compFull (by norm_num [compFull]) (by norm_num [compFull])
    (by norm_num [compFull]) (by norm_num [compFull])).2.2.2.2
    (by norm_num [compFull])

/-- C3: the `pdf` and `pptx` filenames are the title with every
whitespace run replaced by one underscore, lower-cased, plus the
format's extension; the image formats always use `dashboard.<ext>` and
the markup format always uses `dashboard.html`; on the title
`Sales Overview` the derivation yields `sales_overview.pdf`, and
multiple internal spaces collapse to single underscores. -/
theorem c3_filenames (cv : Canvas) (title : String) (db : DashboardConfig)
    (cb : Clipboard) (fmt : String) :
    (∀ r, exportAsPDF cv title = Except.ok r →
      r.filename = some (jsToLower (jsReplaceWS title) ++ ".pdf")) ∧
    (∀ r, exportAsPowerPoint db = Except.ok r →
      r.filename = some (jsToLower (jsReplaceWS db.title) ++ ".pptx")) ∧
    (∀ r, exportAsImage cv fmt = Except.ok r →
      r.filename = some ("dashboard." ++ fmt)) ∧
    (∀ r, exportAsHTML cb db = Except.ok r → r.filename = some "dashboard.html") ∧
    jsToLower (jsReplaceWS "Sales Overview") ++ ".pdf" = "sales_overview.pdf" ∧
    jsToLower (jsReplaceWS "A  B   C") = "a_b_c" := by
  refine ⟨?_, ?_, ?_, ?_, by decide, by decide⟩
  · intro r h
    unfold exportAsPDF at h
    cases hc : cv.toDataURL "image/jpeg" with
    | error e => rw [hc] at h; simp at h
    | ok s => rw [hc] at h; simp at h; rw [← h]
  · intro r h
    unfold exportAsPowerPoint at h
    cases hc : slideShapes db with
    | error e => rw [hc] at h; simp at h
    | ok l => rw [hc] at h; simp at h; rw [← h]
  · intro r h
    unfold exportAsImage at h
    cases hc : cv.toDataURL fmt with
    | error e => rw [hc] at h; simp at h
    | ok s => rw [hc] at h; simp at h; rw [← h]
  · intro r h
    simp only [exportAsHTML] at h
    cases hc : cb (generateHTMLCode db) with
    | error e => rw [hc] at h; simp at h
    | ok u => rw [hc] at h; simp at h; rw [← h]

/-- C3 witness: concrete successful exports carrying the derived
filenames (`sales_overview.pdf`, `my_dash.pptx`, `dashboard.png`,
`dashboard.html`). -/
theorem c3_filenames_witness :
    (∃ r, exportAsPDF cvOk "Sales Overview" = Except.ok r ∧
      r.filename = some "sales_overview.pdf") ∧
    (∃ r, exportAsPowerPoint dbW = Except.ok r ∧ r.filename = some "my_dash.pptx") ∧
    (∃ r, exportAsImage cvOk "png" = Except.ok r ∧ r.filename = some "dashboard.png") ∧
    (∃ r, exportAsHTML cbOk dbW = Except.ok r ∧ r.filename = some "dashboard.html") := by
  obtain ⟨h1, h2, h3, h4, _, _⟩ := c3_filenames cvOk "Sales Overview" dbW cbOk "png"
  refine ⟨⟨_, rfl, ?_⟩, ⟨_, rfl, ?_⟩, ⟨_, rfl, ?_⟩, ⟨_, rfl, ?_⟩⟩
  · exact (h1 _ rfl).trans (by decide)
  · exact (h2 _ rfl).trans (by decide)
  · exact h3 _ rfl
  · exact h4 _ rfl

/-- C6 counterexample: for a chart component whose `datasets` field is
absent, the presentation renderer emits no shape at all — in
particular it does not emit a bar chart with the empty series at the
component's geometry, contrary to the claim. -/
theorem c6_counterexample :
    componentShapes th0 chartNoDs = Except.ok [] ∧
    componentShapes th0 chartNoDs ≠
      Except.ok [Shape.barChart []
        { x := 0, y := 1.2, w := 1.25, h := 56 / 45, title := some "C" }] := by
  have h0 : componentShapes th0 chartNoDs = Except.ok [] := rfl
  exact ⟨h0, by rw [h0]; simp⟩

/-- C6 amended: the presentation renderer uses only the first dataset
and builds the bar series as `labels[i] ↦ [data[i]]`; when the labels
are absent (but a first dataset exists) the emitted series is the
empty sequence and the export still succeeds; when the `datasets`
field itself is absent no chart is emitted at all — the component is
silently skipped — and the export still succeeds. -/
theorem c6_first_dataset_series (th : Theme) (t : String) (cv : Canvas) (cb : Clipboard)
    (c : Component) (hc : c.type = "chart") :
    (∀ d rest, c.data.datasets = some (d :: rest) →
      componentShapes th c = Except.ok [Shape.barChart (chartSeries d)
        { x := (pptxGeom c).1, y := (pptxGeom c).2.1,
          w := (pptxGeom c).2.2.1, h := (pptxGeom c).2.2.2, title := c.title }] ∧
      (d.labels = none → chartSeries d = []) ∧
      (d.labels = none →
        exportDashboard { title := t, theme := th, components := [c] } "pptx" cv cb =
          { success := true, downloadUrl := some "blob:pptx",
            filename := some (jsToLower (jsReplaceWS t) ++ ".pptx") })) ∧
    (c.data.datasets = none →
      componentShapes th c = Except.ok [] ∧
      exportDashboard { title := t, theme := th, components := [c] } "pptx" cv cb =
        { success := true, downloadUrl := some "blob:pptx",
          filename := some (jsToLower (jsReplaceWS t) ++ ".pptx") }) := by
  constructor
  · intro d rest hds
    have hb : (c.type == "chart") = true := by simp [hc]
    have hshape : componentShapes th c = Except.ok [Shape.barChart (chartSeries d)
        { x := (pptxGeom c).1, y := (pptxGeom c).2.1,
          w := (pptxGeom c).2.2.1, h := (pptxGeom c).2.2.2, title := c.title }] := by
      unfold componentShapes
      rw [hb, hds]
      rfl
    refine ⟨hshape, fun hl => by simp [chartSeries, hl], fun _ => pptx_single_ok hshape cv cb⟩
  · intro hds
    have hb : (c.type == "chart") = true := by simp [hc]
    have hk : ¬c.type = "kpi" := by rw [hc]; decide
    have hshape : componentShapes th c = Except.ok [] := by
      unfold componentShapes
      rw [hb, hds]
      simp [hk]
    exact ⟨hshape, pptx_single_ok hshape cv cb⟩

/-- C6 witness: a chart with a labels-less first dataset emits a bar
chart with the empty series and the export succeeds; a chart with no
`datasets` field emits nothing and the export succeeds. -/
theorem c6_first_dataset_series_witness :
    (chartNoLabels.type = "chart" ∧
     chartNoLabels.data.datasets = some [{ labels := none, data := [3] }] ∧
     chartNoDs.type = "chart" ∧ chartNoDs.data.datasets = none) ∧
    componentShapes th0 chartNoLabels =
      Except.ok [Shape.barChart [] { x := 0, y := 1.2, w := 5, h := 2.8, title := none }] ∧
    componentShapes th0 chartNoDs = Except.ok [] ∧
    exportDashboard { title := "T", theme := th0, components := [chartNoDs] } "pptx" cvOk cbOk =
      { success := true, downloadUrl := some "blob:pptx", filename := some "t.pptx" } := by
  obtain ⟨hshape, hser, _⟩ :=
    (c6_first_dataset_series th0 "T" cvOk cbOk chartNoLabels rfl).1
      { labels := none, data := [3] } [] rfl
  obtain ⟨hshape2, hexp2⟩ :=
    (c6_first_dataset_series th0 "T" cvOk cbOk chartNoDs rfl).2 rfl
  refine ⟨⟨rfl, rfl, rfl, rfl⟩, ?_, hshape2, hexp2.trans (by decide)⟩
  rw [hshape, hser rfl]
  norm_num [pptxGeom, chartNoLabels]

/-- C7 counterexample: on a concrete dashboard whose clipboard write
rejects, the markup export does not return a success response — the
rejection escalates to the orchestrator, which returns the prefixed
failure response, contrary to the claim. -/
theorem c7_counterexample :
    (exportDashboard dbW "html" cvOk cbFail).success = false ∧
    exportDashboard dbW "html" cvOk cbFail =
      { success := false, error := some "Export failed: clipboard denied" } := by
  have h : exportDashboard dbW "html" cvOk cbFail =
      { success := false, error := some "Export failed: clipboard denied" } := by decide
  exact ⟨by rw [h], h⟩

/-- C7 amended: when the clipboard copy of the generated document
fails, the whole markup export fails — the orchestrator returns a
failure response with the `Export failed: ` prefix and no artifact,
rather than delivering the document. -/
theorem c7_clipboard_failure_fails_export (db : DashboardConfig) (cv : Canvas)
    (cb : Clipboard) (e : JSError)
    (h : cb (generateHTMLCode db) = Except.error e) :
    exportDashboard db "html" cv cb =
      { success := false, error := some ("Export failed: " ++ e.message) } := by
  unfold exportDashboard
  rw [dispatch_html]
  simp [exportAsHTML, h]

/-- C7 witness: a concrete rejecting clipboard makes the html export of
a concrete dashboard return the prefixed failure response. -/
theorem c7_clipboard_failure_fails_export_witness :
    cbFail (generateHTMLCode dbW) = Except.error { message := "clipboard denied" } ∧
    exportDashboard dbW "html" cvOk cbFail =
      { success := false,
        error := some ("Export failed: " ++ "clipboard denied") } :=
  ⟨rfl, c7_clipboard_failure_fails_export dbW cvOk cbFail { message := "clipboard denied" } rfl⟩

/-- C8: a component whose type is neither `chart` nor `kpi` emits no
shape in the presentation renderer and causes no error: the pptx
export of a dashboard containing it still returns a success
response. -/
theorem c8_unknown_type_skipped (th : Theme) (t : String) (cv : Canvas) (cb : Clipboard)
    (c : Component) (h1 : c.type ≠ "chart") (h2 : c.type ≠ "kpi") :
    componentShapes th c = Except.ok [] ∧
    exportDashboard { title := t, theme := th, components := [c] } "pptx" cv cb =
      { success := true, downloadUrl := some "blob:pptx",
        filename := some (jsToLower (jsReplaceWS t) ++ ".pptx") } := by
  have hb : (c.type == "chart") = false := by simp [h1]
  have hcs : componentShapes th c = Except.ok [] := by
    unfold componentShapes
    rw [hb]
    cases c.data.datasets <;> simp [h2]
  exact ⟨hcs, pptx_single_ok hcs cv cb⟩

/-- C8 witness: a `table` component emits nothing and the pptx export
of the dashboard holding it succeeds. -/
theorem c8_unknown_type_skipped_witness :
    (tableComp.type ≠ "chart" ∧ tableComp.type ≠ "kpi") ∧
    componentShapes th0 tableComp = Except.ok [] ∧
    exportDashboard { title := "My Dash", theme := th0, components := [tableComp] }
      "pptx" cvOk cbOk =
      { success := true, downloadUrl := some "blob:pptx",
        filename := some "my_dash.pptx" } := by
  have h := c8_unknown_type_skipped th0 "My Dash" cvOk cbOk tableComp
    (by decide) (by decide)
  exact ⟨⟨by decide, by decide⟩, h.1, h.2.trans (by decide)⟩

/-- C9: a dashboard containing a chart component whose `datasets` field
is present but empty makes the pptx export fail as a whole — indexing
the first dataset throws, and the orchestrator returns the prefixed
failure response. -/
theorem c9_empty_datasets_fails (db : DashboardConfig) (cv : Canvas) (cb : Clipboard)
    (c : Component) (hmem : c ∈ db.components) (hty : c.type = "chart")
    (hds : c.data.datasets = some []) :
    ∃ m, exportDashboard db "pptx" cv cb =
      { success := false, error := some ("Export failed: " ++ m) } := by
  have hb : (c.type == "chart") = true := by simp [hty]
  have hcs : componentShapes db.theme c =
      Except.error { message := "Cannot read properties of undefined (reading labels)" } := by
    unfold componentShapes
    rw [hb, hds]
    rfl
  obtain ⟨e2, h2⟩ := mapExcept_error_of_mem (componentShapes db.theme) hmem hcs
  have hslide : slideShapes db = Except.error e2 := by
    unfold slideShapes
    rw [h2]
  have hpptx : exportAsPowerPoint db = Except.error e2 := by
    unfold exportAsPowerPoint
    rw [hslide]
  refine ⟨e2.message, ?_⟩
  unfold exportDashboard
  rw [dispatch_pptx, hpptx]

/-- C9 witness: the concrete dashboard holding a chart with
`datasets = []` makes the pptx export return a prefixed failure
response. -/
theorem c9_empty_datasets_fails_witness :
    (chartEmptyDs ∈ dbEmptyDs.components ∧ chartEmptyDs.type = "chart" ∧
     chartEmptyDs.data.datasets = some []) ∧
    ∃ m, exportDashboard dbEmptyDs "pptx" cvOk cbOk =
      { success := false, error := some ("Export failed: " ++ m) } :=
  ⟨⟨by simp [dbEmptyDs], rfl, rfl⟩,
   c9_empty_datasets_fails dbEmptyDs cvOk cbOk chartEmptyDs (by simp [dbEmptyDs]) rfl rfl⟩

/-- C10: for a kpi component with no `unit`, the rendered KPI text is
the displayed value followed by a single trailing space, in both the
presentation renderer (the emitted text box) and the markup renderer
(the kpi-value block); the text is always formed as
`value ++ " " ++ (unit or empty)`. -/
theorem c10_kpi_trailing_space (th : Theme) (c : Component)
    (hk : c.type = "kpi") (hu : c.data.unit = none) :
    kpiDisplayText c.data = jsDisplayValue c.data.value ++ " " ∧
    (∃ rest, componentShapes th c =
      Except.ok (Shape.text (jsDisplayValue c.data.value ++ " ")
        { x := (pptxGeom c).1, y := (pptxGeom c).2.1, w := (pptxGeom c).2.2.1,
          h := (pptxGeom c).2.2.2, fontSize := 18, fontFace := "Arial",
          color := th.primaryColor, bold := true, align := some "center" } :: rest)) ∧
    htmlComponentInner c =
      "<div class=\"kpi-value\">" ++ (jsDisplayValue c.data.value ++ " ") ++ "</div>" := by
  have h1 : kpiDisplayText c.data = jsDisplayValue c.data.value ++ " " := by
    simp [kpiDisplayText, hu, jsOrEmpty]
  have hb : (c.type == "chart") = false := by simp [hk]
  refine ⟨h1, ?_, ?_⟩
  · refine ⟨(if jsTruthyStr c.title then
      [Shape.text (c.title.getD "")
        { x := (pptxGeom c).1, y := (pptxGeom c).2.1 - 0.3, w := (pptxGeom c).2.2.1, h := 0.3,
          fontSize := 12, fontFace := "Arial", color := th.textColor }]
      else []), ?_⟩
    unfold componentShapes
    rw [hb]
    cases c.data.datasets <;> simp [hk, h1]
  · unfold htmlComponentInner
    rw [if_pos hk, h1]

/-- C10 witness: a concrete unit-less KPI (value 42) renders as `42 `
with the trailing space in both renderers. -/
theorem c10_kpi_trailing_space_witness :
    (kpiNoUnit.type = "kpi" ∧ kpiNoUnit.data.unit = none) ∧
    kpiDisplayText kpiNoUnit.data = jsDisplayValue kpiNoUnit.data.value ++ " " ∧
    htmlComponentInner kpiNoUnit =
      "<div class=\"kpi-value\">" ++ (jsDisplayValue kpiNoUnit.data.value ++ " ") ++ "</div>" := by
  obtain ⟨h1, _, h3⟩ := c10_kpi_trailing_space th0 kpiNoUnit rfl rfl
  exact ⟨⟨rfl, rfl⟩, h1, h3⟩

end DashboardExport
